import Mathlib

/-!
# GoTickets: the ticket inventory service of `ticket-system/main.go`

A shallow embedding of the four HTTP handlers and of the SQL statements they
issue, and the accounting properties of the purchase protocol.

## How the database is modelled

* The store is the content of the two tables declared by `createTables`:
  `tickets(id, name, description, allocation)` and
  `purchases(id, ticket_id, user_id, quantity)`, each a list of rows in
  insertion order.
* Every SQL statement is atomic: it either returns an error and has no effect,
  or takes the effect written in its text. The constraints declared in
  `createTables` (`PRIMARY KEY`, `CHECK`, `REFERENCES`) are checked by the
  statement functions below. Every other reason the driver may return an error
  (connectivity, a value wider than `INTEGER` or `VARCHAR(255)`, ...) is
  covered by the fault flags of the request environment, which are arbitrary.
* A value the engine accepts is stored as given.
* `SERIAL` keys are drawn by the engine; the drawn value is part of the request
  environment, and the `PRIMARY KEY` constraint rejects a value already used.
* A transaction works on a private copy of the store; `Commit` installs the
  copy, and leaving the handler without a successful `Commit` discards it
  (`defer tx.Rollback()`).
* The path parameter enters as the result of `strconv.Atoi`, the body as the
  decoded struct; the `binding` tags are checked by `shouldBindTicket` and
  `shouldBindPurchase`.
* Requests are handled one at a time. Go `int` values are mathematical
  integers here: the only arithmetic, `currentAllocation - purchase.Quantity`,
  is guarded by `currentAllocation >= purchase.Quantity >= 1` and cannot wrap.
-/

namespace GoTickets

/-! ## Data model -/

/-- Go struct `Ticket` (main.go, lines 17-22). -/
structure Ticket where
  ID : Int
  Name : String
  Desc : String
  Allocation : Int
deriving DecidableEq, Repr

/-- Go struct `Purchase` (main.go, lines 24-27): the decoded purchase body. -/
structure Purchase where
  Quantity : Int
  UserID : String
deriving DecidableEq, Repr

/-- Row of table `tickets` (main.go, lines 84-89). -/
structure TicketRow where
  id : Int
  name : String
  description : String
  allocation : Int
deriving DecidableEq, Repr

/-- Row of table `purchases` (main.go, lines 91-96). -/
structure PurchaseRow where
  id : Int
  ticket_id : Int
  user_id : String
  quantity : Int
deriving DecidableEq, Repr

/-- Content of the database behind the global `db` handle. -/
structure Store where
  tickets : List TicketRow
  purchases : List PurchaseRow
deriving DecidableEq, Repr

/-- The database right after `createTables`: both tables empty. -/
def emptyStore : Store := ⟨[], []⟩

/-! ## HTTP responses and the record of store calls -/

/-- Body passed to `c.JSON` (or nothing, for `c.Status`). -/
inductive Body where
  | empty
  | error (msg : String)
  | errorf (msg : String)
  | bindError
  | ticket (t : Ticket)
  | tickets (ts : List Ticket)
deriving DecidableEq, Repr

/-- Status code and body written by a handler. -/
structure Response where
  status : Nat
  body : Body
deriving DecidableEq, Repr

/-- The calls a handler can make on `db` or on a transaction. -/
inductive Stmt where
  | begin
  | selectAllocationForUpdate (id : Int)
  | updateAllocation (newAllocation id : Int)
  | insertPurchase (ticket_id : Int) (user_id : String) (quantity : Int)
  | commit
  | rollback
  | insertTicket (name description : String) (allocation : Int)
  | selectTicket (id : Int)
  | selectTickets
deriving DecidableEq, Repr

/-- What a store call returned: success, `sql.ErrNoRows`, or another error. -/
inductive CallResult where
  | ok
  | noRows
  | error
deriving DecidableEq, Repr

/-- One store call together with what it returned. -/
structure StoreCall where
  stmt : Stmt
  result : CallResult
deriving DecidableEq, Repr

/-- What handling one request produces: the response, the store afterwards
and the store calls made, in order. -/
structure Outcome where
  response : Response
  db : Store
  calls : List StoreCall
deriving DecidableEq, Repr

/-! ## Request binding (`ShouldBindJSON` with the struct tags) -/

/-- Binding of a `Ticket` body. The argument is the decoded struct (`none` when
the body is not JSON of the right shape; absent fields hold Go zero values).
Tags: `Name` and `Desc` are `required`, `Allocation` is `required,min=1`. -/
def shouldBindTicket (body : Option Ticket) : Option Ticket :=
  match body with
  | none => none
  | some t =>
    if t.Name = "" ∨ t.Desc = "" ∨ t.Allocation = 0 ∨ t.Allocation < 1 then none
    else some t

/-- Binding of a `Purchase` body. Tags: `Quantity` is `required,min=1`,
`UserID` is `required`. -/
def shouldBindPurchase (body : Option Purchase) : Option Purchase :=
  match body with
  | none => none
  | some p =>
    if p.Quantity = 0 ∨ p.Quantity < 1 ∨ p.UserID = "" then none
    else some p

/-! ## SQL statements -/

/-- Statement `INSERT INTO tickets (name, description, allocation) VALUES ($1, $2, $3)
RETURNING id`, with `id` the key drawn from the sequence. Fails on a used
key (`PRIMARY KEY`) or a negative allocation (`CHECK (allocation >= 0)`). -/
def insertTicket (db : Store) (id : Int) (name description : String) (allocation : Int) :
    Option Store :=
  if allocation < 0 ∨ id ∈ db.tickets.map TicketRow.id then none
  else some { db with tickets := db.tickets ++ [⟨id, name, description, allocation⟩] }

/-- Statement `SELECT id, name, description, allocation FROM tickets WHERE id = $1`,
first row. -/
def selectTicket (db : Store) (id : Int) : Option TicketRow :=
  db.tickets.find? (fun r => r.id == id)

/-- Statement `SELECT allocation FROM tickets WHERE id = $1 FOR UPDATE`, first row. -/
def selectAllocationForUpdate (tx : Store) (id : Int) : Option Int :=
  (tx.tickets.find? (fun r => r.id == id)).map TicketRow.allocation

/-- Effect of `SET allocation = $1 WHERE id = $2` on one row. -/
def setAllocation (newAllocation id : Int) (r : TicketRow) : TicketRow :=
  if r.id = id then { r with allocation := newAllocation } else r

/-- Statement `UPDATE tickets SET allocation = $1 WHERE id = $2`. Fails when a row
would get a negative allocation (`CHECK (allocation >= 0)`). -/
def updateAllocation (tx : Store) (newAllocation id : Int) : Option Store :=
  if newAllocation < 0 ∧ id ∈ tx.tickets.map TicketRow.id then none
  else some { tx with tickets := tx.tickets.map (setAllocation newAllocation id) }

/-- Statement `INSERT INTO purchases (ticket_id, user_id, quantity) VALUES ($1, $2, $3)`,
with `id` the key drawn from the sequence. Fails on a used key
(`PRIMARY KEY`), a quantity that is not positive (`CHECK (quantity > 0)`) or a
ticket id that is no row of `tickets` (`REFERENCES tickets(id)`). -/
def insertPurchase (tx : Store) (id ticket_id : Int) (user_id : String) (quantity : Int) :
    Option Store :=
  if quantity ≤ 0 ∨ ticket_id ∉ tx.tickets.map TicketRow.id
      ∨ id ∈ tx.purchases.map PurchaseRow.id then none
  else some { tx with purchases := tx.purchases ++ [⟨id, ticket_id, user_id, quantity⟩] }

/-! ## Request environments and requests -/

/-- What the engine does during one `createTicket` call: whether the insert
returns an error of its own, and the key it draws. -/
structure CreateEnv where
  insertErr : Bool
  ticketId : Int
deriving DecidableEq, Repr

/-- What the engine does during one `purchaseTicket` call: which calls return
an error of their own, and the key drawn for the purchase row. -/
structure PurchaseEnv where
  beginErr : Bool
  selectErr : Bool
  updateErr : Bool
  insertErr : Bool
  commitErr : Bool
  purchaseId : Int
deriving DecidableEq, Repr

/-- What the engine does during one `getAllTickets` call: whether the query
fails, the index of a row whose `Scan` fails, and the number of rows delivered
before the iteration breaks with an error. -/
structure ListEnv where
  queryErr : Bool
  scanErrAt : Option Nat
  rowsErrAfter : Option Nat
deriving DecidableEq, Repr

/-- Request `POST /tickets`: the decoded body. -/
structure CreateRequest where
  body : Option Ticket
deriving DecidableEq, Repr

/-- Request `POST /tickets/:id/purchases`: the value of `strconv.Atoi` on the
path parameter (`none` when it returns an error) and the decoded body. -/
structure PurchaseRequest where
  idParam : Option Int
  body : Option Purchase
deriving DecidableEq, Repr

/-! ## Handlers -/

/-- Handler `createTicket` (main.go, lines 130-145). -/
def createTicket (env : CreateEnv) (db : Store) (req : CreateRequest) : Outcome :=
  match shouldBindTicket req.body with
  | none => ⟨⟨400, .bindError⟩, db, []⟩
  | some newTicket =>
    let stmt := Stmt.insertTicket newTicket.Name newTicket.Desc newTicket.Allocation
    match (if env.insertErr then none
           else insertTicket db env.ticketId newTicket.Name newTicket.Desc
                  newTicket.Allocation) with
    | none => ⟨⟨500, .error "Failed to create ticket"⟩, db, [⟨stmt, .error⟩]⟩
    | some db1 =>
      ⟨⟨201, .ticket { newTicket with ID := env.ticketId }⟩, db1, [⟨stmt, .ok⟩]⟩

/-- Handler `getTicket` (main.go, lines 147-167). -/
def getTicket (queryErr : Bool) (db : Store) (idParam : Option Int) : Outcome :=
  match idParam with
  | none => ⟨⟨400, .error "Invalid ticket ID"⟩, db, []⟩
  | some id =>
    if queryErr then
      ⟨⟨500, .error "Failed to retrieve ticket"⟩, db, [⟨.selectTicket id, .error⟩]⟩
    else
      match selectTicket db id with
      | none => ⟨⟨404, .error "Ticket not found"⟩, db, [⟨.selectTicket id, .noRows⟩]⟩
      | some r =>
        ⟨⟨200, .ticket ⟨r.id, r.name, r.description, r.allocation⟩⟩, db,
          [⟨.selectTicket id, .ok⟩]⟩

/-- Handler `getAllTickets` (main.go, lines 101-128). -/
def getAllTickets (env : ListEnv) (db : Store) : Outcome :=
  if env.queryErr then
    ⟨⟨500, .errorf "Failed to retrieve tickets: "⟩, db, [⟨.selectTickets, .error⟩]⟩
  else
    let rows := match env.rowsErrAfter with
      | none => db.tickets
      | some n => db.tickets.take n
    let scanFails : Bool := match env.scanErrAt with
      | none => false
      | some k => decide (k < rows.length)
    if scanFails then
      ⟨⟨500, .errorf "Failed to scan ticket: "⟩, db, [⟨.selectTickets, .error⟩]⟩
    else if env.rowsErrAfter.isSome then
      ⟨⟨500, .errorf "Error after scanning all rows: "⟩, db, [⟨.selectTickets, .error⟩]⟩
    else
      ⟨⟨200, .tickets (rows.map fun r => ⟨r.id, r.name, r.description, r.allocation⟩)⟩,
        db, [⟨.selectTickets, .ok⟩]⟩

/-- Handler `purchaseTicket` (main.go, lines 169-225). The transaction works on
the copy `tx` of `db`; only the last branch, after a successful `Commit`,
returns the copy as the new store. Every other branch that has opened the
transaction leaves through the deferred `tx.Rollback()` and returns `db`. -/
def purchaseTicket (env : PurchaseEnv) (db : Store) (req : PurchaseRequest) : Outcome :=
  match req.idParam with
  | none => ⟨⟨400, .error "Invalid ticket ID"⟩, db, []⟩
  | some id =>
  match shouldBindPurchase req.body with
  | none => ⟨⟨400, .bindError⟩, db, []⟩
  | some purchase =>
  if env.beginErr then
    ⟨⟨500, .error "Failed to start transaction"⟩, db, [⟨.begin, .error⟩]⟩
  else
  let tx := db
  let log1 : List StoreCall := [⟨.begin, .ok⟩]
  if env.selectErr then
    ⟨⟨500, .error "Failed to retrieve ticket"⟩, db,
      log1 ++ [⟨.selectAllocationForUpdate id, .error⟩, ⟨.rollback, .ok⟩]⟩
  else
  match selectAllocationForUpdate tx id with
  | none =>
    ⟨⟨404, .error "Ticket not found"⟩, db,
      log1 ++ [⟨.selectAllocationForUpdate id, .noRows⟩, ⟨.rollback, .ok⟩]⟩
  | some currentAllocation =>
  let log2 := log1 ++ [⟨.selectAllocationForUpdate id, .ok⟩]
  if currentAllocation < purchase.Quantity then
    ⟨⟨400, .error "Not enough tickets available"⟩, db, log2 ++ [⟨.rollback, .ok⟩]⟩
  else
  let newAllocation := currentAllocation - purchase.Quantity
  match (if env.updateErr then none else updateAllocation tx newAllocation id) with
  | none =>
    ⟨⟨500, .error "Failed to update ticket allocation"⟩, db,
      log2 ++ [⟨.updateAllocation newAllocation id, .error⟩, ⟨.rollback, .ok⟩]⟩
  | some tx1 =>
  let log3 := log2 ++ [⟨.updateAllocation newAllocation id, .ok⟩]
  match (if env.insertErr then none
         else insertPurchase tx1 env.purchaseId id purchase.UserID purchase.Quantity) with
  | none =>
    ⟨⟨500, .error "Failed to record purchase"⟩, db,
      log3 ++ [⟨.insertPurchase id purchase.UserID purchase.Quantity, .error⟩,
               ⟨.rollback, .ok⟩]⟩
  | some tx2 =>
  let log4 := log3 ++ [⟨.insertPurchase id purchase.UserID purchase.Quantity, .ok⟩]
  if env.commitErr then
    ⟨⟨500, .error "Failed to commit transaction"⟩, db, log4 ++ [⟨.commit, .error⟩]⟩
  else
    ⟨⟨200, .empty⟩, tx2, log4 ++ [⟨.commit, .ok⟩]⟩

/-! ## Request sequences -/

/-- One request to the router of `main` (lines 72-75), with its environment. -/
inductive Request where
  | createTicket (env : CreateEnv) (req : CreateRequest)
  | getAllTickets (env : ListEnv)
  | getTicket (queryErr : Bool) (idParam : Option Int)
  | purchaseTicket (env : PurchaseEnv) (req : PurchaseRequest)
deriving DecidableEq, Repr

/-- Dispatch of one request to its handler. -/
def handle (db : Store) : Request → Outcome
  | .createTicket env req => createTicket env db req
  | .getAllTickets env => getAllTickets env db
  | .getTicket queryErr idParam => getTicket queryErr db idParam
  | .purchaseTicket env req => purchaseTicket env db req

/-- Handling of a sequence of requests one after another, from store `db`:
the outcomes in order. -/
def serve (db : Store) : List Request → List Outcome
  | [] => []
  | r :: rs => handle db r :: serve (handle db r).db rs

/-- The store after a sequence of requests. -/
def finalStore (db : Store) : List Request → Store
  | [] => db
  | r :: rs => finalStore (handle db r).db rs

/-! ## Schema constraints and bookkeeping used in the statements -/

/-- Constraint `id SERIAL PRIMARY KEY` of table `tickets`: no two rows share an id. -/
abbrev TicketKeysUnique (db : Store) : Prop :=
  (db.tickets.map TicketRow.id).Nodup

/-- Constraint `ticket_id INTEGER NOT NULL REFERENCES tickets(id)` of table
`purchases`: every purchase row names the id of a ticket row. -/
abbrev PurchasesReferenceTickets (db : Store) : Prop :=
  ∀ p ∈ db.purchases, p.ticket_id ∈ db.tickets.map TicketRow.id

/-- A call that returned an error other than `sql.ErrNoRows`. -/
abbrev StoreCall.failed (c : StoreCall) : Prop :=
  c.result = CallResult.error

/-- Sum of the quantities of the purchase rows whose `ticket_id` is `id`. -/
def soldQuantity (db : Store) (id : Int) : Int :=
  ((db.purchases.filter (fun p => p.ticket_id == id)).map PurchaseRow.quantity).sum

/-- The ticket of a `201 Created` response of `createTicket`, if the outcome is one. -/
def createdTicket (o : Outcome) : Option Ticket :=
  match o.response.status, o.response.body with
  | 201, .ticket t => some t
  | _, _ => none

/-- The allocation ticket `id` was created with, read off the `201 Created`
response that announced it. -/
def allocationAtCreation (history : List Outcome) (id : Int) : Option Int :=
  ((history.filterMap createdTicket).find? (fun t => t.ID == id)).map Ticket.Allocation

/-- A purchase of `quantity` by `user` against ticket `id`, well-formed JSON. -/
def purchaseOf (id quantity : Int) (user : String) : PurchaseRequest :=
  ⟨some id, some ⟨quantity, user⟩⟩

/-- An environment in which no call returns an error of its own and the
purchase row gets key `purchaseId`. -/
def calm (purchaseId : Int) : PurchaseEnv :=
  ⟨false, false, false, false, false, purchaseId⟩

/-- An environment in which the locked `SELECT` returns an error that is not
`sql.ErrNoRows`. -/
def selectDown : PurchaseEnv :=
  ⟨false, true, false, false, false, 1⟩

/-- A store holding the one ticket of the spec walkthrough with allocation `n`. -/
def concert (n : Int) : Store :=
  ⟨[⟨1, "Concert", "...", n⟩], []⟩

/-- An environment in which the purchase insert returns an error. -/
def insertDown : PurchaseEnv :=
  ⟨false, false, false, true, false, 1⟩

/-- An environment in which `tx.Commit()` returns an error. -/
def commitDown : PurchaseEnv :=
  ⟨false, false, false, false, true, 1⟩

/-- One quantity-1 purchase of ticket `id` per entry of `buyers`, each entry
giving the environment of the request and the user id in its body. -/
def singlePurchases (id : Int) (buyers : List (PurchaseEnv × String)) : List Request :=
  buyers.map fun b => Request.purchaseTicket b.1 (purchaseOf id 1 b.2)

/-- Ten buyers "u1" to "u10" in fault-free environments drawing the purchase
keys 1 to 10. -/
def tenBuyers : List (PurchaseEnv × String) :=
  [(calm 1, "u1"), (calm 2, "u2"), (calm 3, "u3"), (calm 4, "u4"), (calm 5, "u5"),
   (calm 6, "u6"), (calm 7, "u7"), (calm 8, "u8"), (calm 9, "u9"), (calm 10, "u10")]

/-- The properties every store reached by the handlers has, relative to the
outcomes `history` that led to it: the schema constraints hold, every ticket
announced by a `201` is a row of `tickets`, and every ticket row accounts for
its purchases. -/
structure Sound (db : Store) (history : List Outcome) : Prop where
  keys : TicketKeysUnique db
  refs : PurchasesReferenceTickets db
  nonneg : ∀ r ∈ db.tickets, 0 ≤ r.allocation
  rows : ∀ p ∈ db.purchases, 0 < p.quantity ∧ p.user_id ≠ ""
  known : ∀ t ∈ history.filterMap createdTicket, t.ID ∈ db.tickets.map TicketRow.id
  account : ∀ r ∈ db.tickets,
    allocationAtCreation history r.id = some (r.allocation + soldQuantity db r.id)

/-- The spec walkthrough as a request sequence: create "Concert" with allocation
2 (key 1 is drawn), buy 1 as "u1", try to buy 2 as "u2", and try to buy 1 as
"u3" while the purchase insert returns an error. -/
def walkthrough : List Request :=
  [Request.createTicket ⟨false, 1⟩ ⟨some ⟨0, "Concert", "...", 2⟩⟩,
   Request.purchaseTicket (calm 1) (purchaseOf 1 1 "u1"),
   Request.purchaseTicket (calm 2) (purchaseOf 1 2 "u2"),
   Request.purchaseTicket insertDown (purchaseOf 1 1 "u3")]

/-! ## Lemmas on the statements -/

theorem find_of_mem_of_keysUnique (rows : List TicketRow) (r : TicketRow)
    (hu : (rows.map TicketRow.id).Nodup) (hr : r ∈ rows) :
    rows.find? (fun x => x.id == r.id) = some r := by
  induction rows with
  | nil => simp at hr
  | cons x xs ih =>
    simp only [List.map_cons, List.nodup_cons] at hu
    rcases List.mem_cons.mp hr with rfl | hmem
    · simp
    · have hne : x.id ≠ r.id := by
        intro he
        exact hu.1 (he ▸ List.mem_map_of_mem TicketRow.id hmem)
      simp [List.find?_cons, hne, ih hu.2 hmem]

theorem find_none_of_not_mem (rows : List TicketRow) (id : Int)
    (h : id ∉ rows.map TicketRow.id) :
    rows.find? (fun x => x.id == id) = none := by
  simp only [List.find?_eq_none]
  intro x hx
  simp only [beq_iff_eq]
  intro he
  exact h (he ▸ List.mem_map_of_mem TicketRow.id hx)

theorem mem_keys_of_find (rows : List TicketRow) (id : Int) (r : TicketRow)
    (h : rows.find? (fun x => x.id == id) = some r) :
    r ∈ rows ∧ r.id = id := by
  refine ⟨List.mem_of_find?_eq_some h, ?_⟩
  have := List.find?_some h
  simpa using this

theorem eq_of_same_key (rows : List TicketRow) (a b : TicketRow)
    (hu : (rows.map TicketRow.id).Nodup) (ha : a ∈ rows) (hb : b ∈ rows) (h : a.id = b.id) :
    a = b := by
  have h1 := find_of_mem_of_keysUnique rows a hu ha
  have h2 := find_of_mem_of_keysUnique rows b hu hb
  rw [h] at h1
  exact Option.some.inj (h1.symm.trans h2)

theorem setAllocation_id (n id : Int) (r : TicketRow) : (setAllocation n id r).id = r.id := by
  unfold setAllocation
  split <;> rfl

theorem map_setAllocation_keys (rows : List TicketRow) (n id : Int) :
    (rows.map (setAllocation n id)).map TicketRow.id = rows.map TicketRow.id := by
  simp only [List.map_map]
  exact List.map_congr_left fun r _ => setAllocation_id n id r

theorem selectAllocationForUpdate_of_mem (db : Store) (r : TicketRow)
    (hkey : TicketKeysUnique db) (hmem : r ∈ db.tickets) :
    selectAllocationForUpdate db r.id = some r.allocation := by
  unfold selectAllocationForUpdate
  rw [find_of_mem_of_keysUnique db.tickets r hkey hmem]
  rfl

theorem selectAllocationForUpdate_some (db : Store) (id cur : Int)
    (h : selectAllocationForUpdate db id = some cur) :
    ∃ r ∈ db.tickets, r.id = id ∧ r.allocation = cur := by
  unfold selectAllocationForUpdate at h
  cases hf : db.tickets.find? (fun r => r.id == id) with
  | none => simp [hf] at h
  | some r =>
    simp only [hf, Option.map_some', Option.some.injEq] at h
    exact ⟨r, (mem_keys_of_find db.tickets id r hf).1, (mem_keys_of_find db.tickets id r hf).2, h⟩

theorem updateAllocation_of_nonneg (tx : Store) (n id : Int) (hn : 0 ≤ n) :
    updateAllocation tx n id
      = some ⟨tx.tickets.map (setAllocation n id), tx.purchases⟩ := by
  unfold updateAllocation
  simp [not_lt.mpr hn]

theorem updateAllocation_some (tx tx1 : Store) (n id : Int)
    (h : updateAllocation tx n id = some tx1) :
    tx1 = ⟨tx.tickets.map (setAllocation n id), tx.purchases⟩
      ∧ (id ∈ tx.tickets.map TicketRow.id → 0 ≤ n) := by
  unfold updateAllocation at h
  split at h
  · simp at h
  · rename_i hn
    simp only [Option.some.injEq] at h
    refine ⟨h.symm, fun hi => ?_⟩
    by_contra hneg
    exact hn ⟨not_le.mp hneg, hi⟩

theorem insertPurchase_of_fresh (tx : Store) (pid i q : Int) (u : String) (hq : 0 < q)
    (hi : i ∈ tx.tickets.map TicketRow.id) (hpid : pid ∉ tx.purchases.map PurchaseRow.id) :
    insertPurchase tx pid i u q = some ⟨tx.tickets, tx.purchases ++ [⟨pid, i, u, q⟩]⟩ := by
  unfold insertPurchase
  rw [if_neg]
  rintro (h | h | h)
  · omega
  · exact h hi
  · exact hpid h

theorem insertPurchase_of_used (tx : Store) (pid i q : Int) (u : String)
    (hpid : pid ∈ tx.purchases.map PurchaseRow.id) :
    insertPurchase tx pid i u q = none := by
  unfold insertPurchase
  rw [if_pos (Or.inr (Or.inr hpid))]

theorem insertPurchase_some (tx tx2 : Store) (pid i q : Int) (u : String)
    (h : insertPurchase tx pid i u q = some tx2) :
    0 < q ∧ i ∈ tx.tickets.map TicketRow.id
      ∧ tx2 = ⟨tx.tickets, tx.purchases ++ [⟨pid, i, u, q⟩]⟩ := by
  unfold insertPurchase at h
  split at h
  · simp at h
  · rename_i hn
    push_neg at hn
    simp only [Option.some.injEq] at h
    exact ⟨hn.1, hn.2.1, h.symm⟩

theorem insertTicket_some (db db1 : Store) (id a : Int) (n d : String)
    (h : insertTicket db id n d a = some db1) :
    0 ≤ a ∧ id ∉ db.tickets.map TicketRow.id
      ∧ db1 = ⟨db.tickets ++ [⟨id, n, d, a⟩], db.purchases⟩ := by
  unfold insertTicket at h
  split at h
  · simp at h
  · rename_i hn
    push_neg at hn
    simp only [Option.some.injEq] at h
    exact ⟨hn.1, hn.2, h.symm⟩

theorem shouldBindPurchase_some (p q : Purchase) (h : shouldBindPurchase (some p) = some q) :
    q = p ∧ 1 ≤ p.Quantity ∧ p.UserID ≠ "" := by
  unfold shouldBindPurchase at h
  simp only at h
  split at h
  · simp at h
  · rename_i hn
    simp only [Option.some.injEq] at h
    push_neg at hn
    exact ⟨h.symm, by omega, hn.2.2⟩

theorem shouldBindPurchase_valid (q : Int) (u : String) (hq : 1 ≤ q) (hu : u ≠ "") :
    shouldBindPurchase (some ⟨q, u⟩) = some ⟨q, u⟩ := by
  unfold shouldBindPurchase
  have h0 : q ≠ 0 := by omega
  have h1 : ¬ q < 1 := by omega
  simp [h0, h1, hu]

/-! ## Lemmas on the handlers -/

/-- Outcome of a purchase whose response is not `200`: the store is the one
before the request. -/
theorem purchaseTicket_db_of_ne_ok (env : PurchaseEnv) (db : Store) (req : PurchaseRequest)
    (h : (purchaseTicket env db req).response.status ≠ 200) :
    (purchaseTicket env db req).db = db := by
  obtain ⟨b, s, u, i, c, pid⟩ := env
  obtain ⟨idParam, body⟩ := req
  cases idParam with
  | none => simp [purchaseTicket]
  | some id =>
    cases hb : shouldBindPurchase body with
    | none => simp [purchaseTicket, hb]
    | some p =>
      cases hsel : selectAllocationForUpdate db id with
      | none => cases b <;> cases s <;> simp [purchaseTicket, hb, hsel]
      | some cur =>
        by_cases hlt : cur < p.Quantity
        · cases b <;> cases s <;> simp [purchaseTicket, hb, hsel, hlt]
        · cases hupd : updateAllocation db (cur - p.Quantity) id with
          | none => cases b <;> cases s <;> cases u <;> simp [purchaseTicket, hb, hsel, hlt, hupd]
          | some tx1 =>
            cases hins : insertPurchase tx1 pid id p.UserID p.Quantity with
            | none =>
              cases b <;> cases s <;> cases u <;> cases i <;>
                simp [purchaseTicket, hb, hsel, hlt, hupd, hins]
            | some tx2 =>
              cases b <;> cases s <;> cases u <;> cases i <;> cases c <;>
                simp [purchaseTicket, hb, hsel, hlt, hupd, hins] at h ⊢

/-- Outcome of a purchase whose response is `200`: every step of the protocol
went through, and the store is the committed copy. -/
theorem purchaseTicket_ok_inv (env : PurchaseEnv) (db : Store) (req : PurchaseRequest)
    (h : (purchaseTicket env db req).response.status = 200) :
    ∃ id p cur tx1 tx2, req.idParam = some id ∧ shouldBindPurchase req.body = some p ∧
      selectAllocationForUpdate db id = some cur ∧ p.Quantity ≤ cur ∧
      updateAllocation db (cur - p.Quantity) id = some tx1 ∧
      insertPurchase tx1 env.purchaseId id p.UserID p.Quantity = some tx2 ∧
      (purchaseTicket env db req).db = tx2 := by
  obtain ⟨b, s, u, i, c, pid⟩ := env
  obtain ⟨idParam, body⟩ := req
  cases idParam with
  | none => simp [purchaseTicket] at h
  | some id =>
    cases hb : shouldBindPurchase body with
    | none => simp [purchaseTicket, hb] at h
    | some p =>
      cases hsel : selectAllocationForUpdate db id with
      | none => cases b <;> cases s <;> simp [purchaseTicket, hb, hsel] at h
      | some cur =>
        by_cases hlt : cur < p.Quantity
        · cases b <;> cases s <;> simp [purchaseTicket, hb, hsel, hlt] at h
        · cases hupd : updateAllocation db (cur - p.Quantity) id with
          | none =>
            cases b <;> cases s <;> cases u <;> simp [purchaseTicket, hb, hsel, hlt, hupd] at h
          | some tx1 =>
            cases hins : insertPurchase tx1 pid id p.UserID p.Quantity with
            | none =>
              cases b <;> cases s <;> cases u <;> cases i <;>
                simp [purchaseTicket, hb, hsel, hlt, hupd, hins] at h
            | some tx2 =>
              refine ⟨id, p, cur, tx1, tx2, rfl, rfl, hsel, not_lt.mp hlt, hupd, hins, ?_⟩
              cases b <;> cases s <;> cases u <;> cases i <;> cases c <;>
                simp [purchaseTicket, hb, hsel, hlt, hupd, hins] at h ⊢

/-- A valid purchase within the allocation, in a run where no store call returns
an error, commits: the response is `200`, the allocation of ticket `i` is
lowered by `q`, every other ticket row is kept, one purchase row is appended. -/
theorem purchaseTicket_commits (env : PurchaseEnv) (db : Store) (i a q : Int)
    (u name desc : String) (hkey : TicketKeysUnique db)
    (hmem : (⟨i, name, desc, a⟩ : TicketRow) ∈ db.tickets)
    (hq1 : 1 ≤ q) (hqa : q ≤ a) (hu : u ≠ "")
    (hok : ∀ c ∈ (purchaseTicket env db (purchaseOf i q u)).calls, ¬ c.failed) :
    (purchaseTicket env db (purchaseOf i q u)).response = ⟨200, Body.empty⟩
      ∧ (purchaseTicket env db (purchaseOf i q u)).db.tickets
          = db.tickets.map (setAllocation (a - q) i)
      ∧ (⟨i, name, desc, a - q⟩ : TicketRow) ∈ (purchaseTicket env db (purchaseOf i q u)).db.tickets
      ∧ (∀ r ∈ db.tickets, r.id ≠ i → r ∈ (purchaseTicket env db (purchaseOf i q u)).db.tickets)
      ∧ (purchaseTicket env db (purchaseOf i q u)).db.purchases
          = db.purchases ++ [⟨env.purchaseId, i, u, q⟩] := by
  have hsel : selectAllocationForUpdate db i = some a :=
    selectAllocationForUpdate_of_mem db ⟨i, name, desc, a⟩ hkey hmem
  have hbind := shouldBindPurchase_valid q u hq1 hu
  have hlt : ¬ a < q := not_lt.mpr hqa
  have hupd := updateAllocation_of_nonneg db (a - q) i (by omega)
  have hi : i ∈ (db.tickets.map (setAllocation (a - q) i)).map TicketRow.id :=
    List.mem_map.mpr ⟨_, List.mem_map.mpr ⟨_, hmem, rfl⟩, by simp [setAllocation]⟩
  obtain ⟨b, s, ue, ie, c, pid⟩ := env
  have hmem1 : (⟨i, name, desc, a - q⟩ : TicketRow)
      ∈ db.tickets.map (setAllocation (a - q) i) :=
    List.mem_map.mpr ⟨_, hmem, by simp [setAllocation]⟩
  have hmem2 : ∀ r ∈ db.tickets, r.id ≠ i → r ∈ db.tickets.map (setAllocation (a - q) i) :=
    fun r hr hne => List.mem_map.mpr ⟨r, hr, by simp [setAllocation, hne]⟩
  by_cases hpid : pid ∈ db.purchases.map PurchaseRow.id
  · have hins := insertPurchase_of_used ⟨db.tickets.map (setAllocation (a - q) i), db.purchases⟩
      pid i q u hpid
    exfalso
    revert hok
    cases b <;> cases s <;> cases ue <;> cases ie <;>
      simp [purchaseTicket, purchaseOf, hbind, hsel, hlt, hupd, hins, StoreCall.failed]
  · have hins := insertPurchase_of_fresh ⟨db.tickets.map (setAllocation (a - q) i), db.purchases⟩
      pid i q u (by omega) hi hpid
    cases b <;> cases s <;> cases ue <;> cases ie <;> cases c <;>
      simp [purchaseTicket, purchaseOf, hbind, hsel, hlt, hupd, hins, StoreCall.failed] at hok ⊢
    exact ⟨List.mem_map.mp hmem1, fun r hr hne => List.mem_map.mp (hmem2 r hr hne)⟩

/-- In an environment without faults and with a fresh purchase key, a valid
purchase within the allocation makes no store call that returns an error. -/
theorem purchaseTicket_calm_calls (pid : Int) (db : Store) (i a q : Int) (u name desc : String)
    (hkey : TicketKeysUnique db) (hmem : (⟨i, name, desc, a⟩ : TicketRow) ∈ db.tickets)
    (hq1 : 1 ≤ q) (hqa : q ≤ a) (hu : u ≠ "")
    (hpid : pid ∉ db.purchases.map PurchaseRow.id) :
    ∀ c ∈ (purchaseTicket (calm pid) db (purchaseOf i q u)).calls, ¬ c.failed := by
  have hsel : selectAllocationForUpdate db i = some a :=
    selectAllocationForUpdate_of_mem db ⟨i, name, desc, a⟩ hkey hmem
  have hbind := shouldBindPurchase_valid q u hq1 hu
  have hlt : ¬ a < q := not_lt.mpr hqa
  have hupd := updateAllocation_of_nonneg db (a - q) i (by omega)
  have hi : i ∈ (db.tickets.map (setAllocation (a - q) i)).map TicketRow.id :=
    List.mem_map.mpr ⟨_, List.mem_map.mpr ⟨_, hmem, rfl⟩, by simp [setAllocation]⟩
  have hins := insertPurchase_of_fresh ⟨db.tickets.map (setAllocation (a - q) i), db.purchases⟩
    pid i q u (by omega) hi hpid
  simp [purchaseTicket, purchaseOf, calm, hbind, hsel, hlt, hupd, hins, StoreCall.failed]

/-- A valid purchase beyond the allocation never changes the store, and is
answered 400 "Not enough tickets available" once the locked read went through. -/
theorem purchaseTicket_refuses (env : PurchaseEnv) (db : Store) (i a q : Int)
    (u name desc : String) (hkey : TicketKeysUnique db)
    (hmem : (⟨i, name, desc, a⟩ : TicketRow) ∈ db.tickets)
    (hq1 : 1 ≤ q) (hqa : a < q) (hu : u ≠ "") :
    (purchaseTicket env db (purchaseOf i q u)).db = db
      ∧ (env.beginErr = false → env.selectErr = false →
          (purchaseTicket env db (purchaseOf i q u)).response
              = ⟨400, Body.error "Not enough tickets available"⟩
            ∧ (purchaseTicket env db (purchaseOf i q u)).calls
              = [⟨Stmt.begin, CallResult.ok⟩,
                 ⟨Stmt.selectAllocationForUpdate i, CallResult.ok⟩,
                 ⟨Stmt.rollback, CallResult.ok⟩]) := by
  have hsel : selectAllocationForUpdate db i = some a :=
    selectAllocationForUpdate_of_mem db ⟨i, name, desc, a⟩ hkey hmem
  have hbind := shouldBindPurchase_valid q u hq1 hu
  obtain ⟨b, s, ue, ie, c, pid⟩ := env
  cases b <;> cases s <;> simp [purchaseTicket, purchaseOf, hbind, hsel, hqa]

theorem purchaseTicket_begin_select_ok (env : PurchaseEnv) (db : Store) (i q : Int) (u : String)
    (hq1 : 1 ≤ q) (hu : u ≠ "")
    (hok : ∀ c ∈ (purchaseTicket env db (purchaseOf i q u)).calls, ¬ c.failed) :
    env.beginErr = false ∧ env.selectErr = false := by
  have hbind := shouldBindPurchase_valid q u hq1 hu
  obtain ⟨b, s, ue, ie, c, pid⟩ := env
  cases b <;> cases s <;>
    simp [purchaseTicket, purchaseOf, hbind, StoreCall.failed] at hok ⊢

theorem createdTicket_purchaseTicket (env : PurchaseEnv) (db : Store) (req : PurchaseRequest) :
    createdTicket (purchaseTicket env db req) = none := by
  obtain ⟨b, s, u, i, c, pid⟩ := env
  obtain ⟨idParam, body⟩ := req
  cases idParam with
  | none => simp [purchaseTicket, createdTicket]
  | some id =>
    cases hb : shouldBindPurchase body with
    | none => simp [purchaseTicket, hb, createdTicket]
    | some p =>
      cases hsel : selectAllocationForUpdate db id with
      | none => cases b <;> cases s <;> simp [purchaseTicket, hb, hsel, createdTicket]
      | some cur =>
        by_cases hlt : cur < p.Quantity
        · cases b <;> cases s <;> simp [purchaseTicket, hb, hsel, hlt, createdTicket]
        · cases hupd : updateAllocation db (cur - p.Quantity) id with
          | none =>
            cases b <;> cases s <;> cases u <;>
              simp [purchaseTicket, hb, hsel, hlt, hupd, createdTicket]
          | some tx1 =>
            cases hins : insertPurchase tx1 pid id p.UserID p.Quantity with
            | none =>
              cases b <;> cases s <;> cases u <;> cases i <;>
                simp [purchaseTicket, hb, hsel, hlt, hupd, hins, createdTicket]
            | some tx2 =>
              cases b <;> cases s <;> cases u <;> cases i <;> cases c <;>
                simp [purchaseTicket, hb, hsel, hlt, hupd, hins, createdTicket]

theorem getTicket_frame (queryErr : Bool) (db : Store) (idParam : Option Int) :
    (getTicket queryErr db idParam).db = db
      ∧ createdTicket (getTicket queryErr db idParam) = none := by
  cases idParam with
  | none => simp [getTicket, createdTicket]
  | some id =>
    cases queryErr
    · cases hs : selectTicket db id <;> simp [getTicket, hs, createdTicket]
    · simp [getTicket, createdTicket]

theorem getAllTickets_frame (env : ListEnv) (db : Store) :
    (getAllTickets env db).db = db ∧ createdTicket (getAllTickets env db) = none := by
  unfold getAllTickets
  split
  · simp [createdTicket]
  · dsimp only
    split
    · simp [createdTicket]
    · split <;> simp [createdTicket]

/-- The two ways `createTicket` can end: no change and no `201`, or a `201`
announcing the bound ticket under the drawn key, which the insert has stored. -/
theorem createTicket_cases (env : CreateEnv) (db : Store) (req : CreateRequest) :
    ((createTicket env db req).db = db ∧ createdTicket (createTicket env db req) = none)
      ∨ ∃ t, shouldBindTicket req.body = some t
          ∧ insertTicket db env.ticketId t.Name t.Desc t.Allocation
              = some (createTicket env db req).db
          ∧ createdTicket (createTicket env db req) = some { t with ID := env.ticketId } := by
  obtain ⟨e, tid⟩ := env
  cases hb : shouldBindTicket req.body with
  | none => left; simp [createTicket, hb, createdTicket]
  | some t =>
    cases e
    · cases hi : insertTicket db tid t.Name t.Desc t.Allocation with
      | none => left; simp [createTicket, hb, hi, createdTicket]
      | some db1 => right; exact ⟨t, rfl, by simp [createTicket, hb, hi, createdTicket]⟩
    · left; simp [createTicket, hb, createdTicket]

/-- A request that is not a purchase answered with `200` keeps every ticket row. -/
theorem handle_keeps_tickets (db : Store) (r : Request)
    (hr : ∀ env req, r = Request.purchaseTicket env req →
      (purchaseTicket env db req).response.status ≠ 200)
    (t : TicketRow) (ht : t ∈ db.tickets) : t ∈ (handle db r).db.tickets := by
  cases r with
  | createTicket env req =>
    rcases createTicket_cases env db req with ⟨hdb, _⟩ | ⟨t0, _, hins, _⟩
    · simp only [handle, hdb]; exact ht
    · obtain ⟨_, _, hdb1⟩ := insertTicket_some _ _ _ _ _ _ hins
      simp only [handle, hdb1]
      exact List.mem_append_left _ ht
  | getAllTickets env => simp only [handle, (getAllTickets_frame env db).1]; exact ht
  | getTicket queryErr idParam =>
    simp only [handle, (getTicket_frame queryErr db idParam).1]; exact ht
  | purchaseTicket env req =>
    simp only [handle, purchaseTicket_db_of_ne_ok env db req (hr env req rfl)]; exact ht

/-! ## Lemmas on the bookkeeping -/

theorem soldQuantity_append (db : Store) (ts1 : List TicketRow) (p : PurchaseRow) (id : Int) :
    soldQuantity ⟨ts1, db.purchases ++ [p]⟩ id
      = soldQuantity db id + (if p.ticket_id = id then p.quantity else 0) := by
  unfold soldQuantity
  by_cases hp : p.ticket_id = id <;> simp [List.filter_append, List.filter_cons, hp]

theorem soldQuantity_tickets (db : Store) (ts1 : List TicketRow) (id : Int) :
    soldQuantity ⟨ts1, db.purchases⟩ id = soldQuantity db id := rfl

theorem soldQuantity_unreferenced (db : Store) (id : Int)
    (h : ∀ p ∈ db.purchases, p.ticket_id ≠ id) : soldQuantity db id = 0 := by
  unfold soldQuantity
  have : db.purchases.filter (fun p => p.ticket_id == id) = [] := by
    simp only [List.filter_eq_nil_iff, beq_iff_eq]
    exact h
  simp [this]

theorem allocationAtCreation_append_none (history : List Outcome) (o : Outcome) (id : Int)
    (h : createdTicket o = none) :
    allocationAtCreation (history ++ [o]) id = allocationAtCreation history id := by
  unfold allocationAtCreation
  simp [List.filterMap_append, h]

theorem allocationAtCreation_append_old (history : List Outcome) (o : Outcome) (id a : Int)
    (h : allocationAtCreation history id = some a) :
    allocationAtCreation (history ++ [o]) id = some a := by
  unfold allocationAtCreation at h ⊢
  cases hf : (history.filterMap createdTicket).find? (fun t => t.ID == id) with
  | none => simp [hf] at h
  | some t =>
    rw [List.filterMap_append, List.find?_append, hf]
    simpa [hf] using h

theorem allocationAtCreation_append_new (history : List Outcome) (o : Outcome) (t : Ticket)
    (ho : createdTicket o = some t)
    (hnew : ∀ t' ∈ history.filterMap createdTicket, t'.ID ≠ t.ID) :
    allocationAtCreation (history ++ [o]) t.ID = some t.Allocation := by
  unfold allocationAtCreation
  have hf : (history.filterMap createdTicket).find? (fun x => x.ID == t.ID) = none := by
    simp only [List.find?_eq_none, beq_iff_eq]
    exact hnew
  rw [List.filterMap_append, List.find?_append, hf]
  simp [ho]

/-! ## Every reached store is sound -/

theorem sound_of_frame (db : Store) (history : List Outcome) (o : Outcome)
    (h : Sound db history) (hdb : o.db = db) (hc : createdTicket o = none) :
    Sound o.db (history ++ [o]) := by
  rw [hdb]
  refine ⟨h.keys, h.refs, h.nonneg, h.rows, ?_, ?_⟩
  · simpa [List.filterMap_append, hc] using h.known
  · intro r hr
    rw [allocationAtCreation_append_none history o r.id hc]
    exact h.account r hr

theorem sound_createTicket (env : CreateEnv) (db : Store) (req : CreateRequest)
    (history : List Outcome) (h : Sound db history) :
    Sound (createTicket env db req).db (history ++ [createTicket env db req]) := by
  rcases createTicket_cases env db req with ⟨hdb, hc⟩ | ⟨t, _, hins, hc⟩
  · exact sound_of_frame db history _ h hdb hc
  · obtain ⟨ha, hfresh, hdb1⟩ := insertTicket_some _ _ _ _ _ _ hins
    have hnew : ∀ t' ∈ history.filterMap createdTicket, t'.ID ≠ env.ticketId :=
      fun t' ht' he => hfresh (he ▸ h.known t' ht')
    have hunref : ∀ p ∈ db.purchases, p.ticket_id ≠ env.ticketId :=
      fun p hp he => hfresh (he ▸ h.refs p hp)
    rw [hdb1]
    refine ⟨?_, ?_, ?_, h.rows, ?_, ?_⟩
    · unfold TicketKeysUnique
      simp only [List.map_append, List.map_cons, List.map_nil]
      refine List.Nodup.append h.keys (List.nodup_singleton _) ?_
      simpa [List.disjoint_singleton] using hfresh
    · intro p hp
      simp only [List.map_append, List.mem_append]
      exact Or.inl (h.refs p hp)
    · intro r hr
      rcases List.mem_append.mp hr with hr | hr
      · exact h.nonneg r hr
      · simp only [List.mem_singleton] at hr
        subst hr
        exact ha
    · intro t' ht'
      simp only [List.filterMap_append, List.filterMap_cons, hc, List.filterMap_nil,
        List.mem_append, List.mem_singleton] at ht'
      simp only [List.map_append, List.map_cons, List.map_nil, List.mem_append,
        List.mem_singleton]
      rcases ht' with ht' | ht'
      · exact Or.inl (h.known t' ht')
      · right
        subst ht'
        rfl
    · intro r hr
      rcases List.mem_append.mp hr with hr | hr
      · rw [soldQuantity_tickets db]
        exact allocationAtCreation_append_old history _ r.id _ (h.account r hr)
      · simp only [List.mem_singleton] at hr
        subst hr
        have hs : soldQuantity ⟨db.tickets ++ [⟨env.ticketId, t.Name, t.Desc, t.Allocation⟩],
            db.purchases⟩ env.ticketId = 0 :=
          soldQuantity_unreferenced _ _ hunref
        have := allocationAtCreation_append_new history _ { t with ID := env.ticketId } hc hnew
        simpa [hs] using this

theorem sound_purchaseTicket (env : PurchaseEnv) (db : Store) (req : PurchaseRequest)
    (history : List Outcome) (h : Sound db history) :
    Sound (purchaseTicket env db req).db (history ++ [purchaseTicket env db req]) := by
  have hc := createdTicket_purchaseTicket env db req
  by_cases hst : (purchaseTicket env db req).response.status = 200
  · obtain ⟨id, p, cur, tx1, tx2, _, hb, hsel, hle, hupd, hins, hdb⟩ :=
      purchaseTicket_ok_inv env db req hst
    obtain ⟨r0, hr0, hr0id, hr0a⟩ := selectAllocationForUpdate_some db id cur hsel
    obtain ⟨htx1, _⟩ := updateAllocation_some db tx1 _ id hupd
    obtain ⟨hq, hi, htx2⟩ := insertPurchase_some tx1 tx2 _ _ _ _ hins
    have hbody : ∃ p0, req.body = some p0 := by
      cases hreq : req.body with
      | none => simp [hreq, shouldBindPurchase] at hb
      | some p0 => exact ⟨p0, rfl⟩
    obtain ⟨p0, hp0⟩ := hbody
    rw [hp0] at hb
    obtain ⟨_, _, hu⟩ := shouldBindPurchase_some p0 p hb
    have hpu : p.UserID ≠ "" := by
      have := (shouldBindPurchase_some p0 p hb).1
      rw [this]; exact hu
    rw [hdb, htx2, htx1]
    simp only
    refine ⟨?_, ?_, ?_, ?_, ?_, ?_⟩
    · unfold TicketKeysUnique
      simp only [map_setAllocation_keys]
      exact h.keys
    · intro q hq'
      simp only [map_setAllocation_keys]
      rcases List.mem_append.mp hq' with hq' | hq'
      · exact h.refs q hq'
      · simp only [List.mem_singleton] at hq'
        subst hq'
        rw [htx1] at hi
        rw [← map_setAllocation_keys db.tickets (cur - p.Quantity) id]
        exact hi
    · intro r hr
      obtain ⟨r1, hr1, rfl⟩ := List.mem_map.mp hr
      unfold setAllocation
      split
      · simp only; omega
      · exact h.nonneg r1 hr1
    · intro q hq'
      rcases List.mem_append.mp hq' with hq' | hq'
      · exact h.rows q hq'
      · simp only [List.mem_singleton] at hq'
        subst hq'
        exact ⟨hq, hpu⟩
    · have hsame : (history ++ [purchaseTicket env db req]).filterMap createdTicket
          = history.filterMap createdTicket := by
        simp [List.filterMap_append, hc]
      rw [hsame]
      simp only [map_setAllocation_keys]
      exact h.known
    · intro r hr
      obtain ⟨r1, hr1, rfl⟩ := List.mem_map.mp hr
      rw [setAllocation_id, allocationAtCreation_append_none history _ r1.id hc,
        h.account r1 hr1, soldQuantity_append db]
      congr 1
      by_cases hid : r1.id = id
      · have hr1r0 : r1 = r0 := by
          have h1 := find_of_mem_of_keysUnique db.tickets r1 h.keys hr1
          have h0 := find_of_mem_of_keysUnique db.tickets r0 h.keys hr0
          rw [hid] at h1
          rw [hr0id] at h0
          exact Option.some.inj (h1.symm.trans h0)
        subst hr1r0
        simp only [setAllocation, hid, if_true]
        omega
      · have hne : ¬ id = r1.id := fun he => hid he.symm
        simp [setAllocation, hid, hne]
  · exact sound_of_frame db history _ h (purchaseTicket_db_of_ne_ok env db req hst) hc

theorem sound_handle (db : Store) (r : Request) (history : List Outcome) (h : Sound db history) :
    Sound (handle db r).db (history ++ [handle db r]) := by
  cases r with
  | createTicket env req => exact sound_createTicket env db req history h
  | getAllTickets env =>
    exact sound_of_frame db history _ h (getAllTickets_frame env db).1 (getAllTickets_frame env db).2
  | getTicket queryErr idParam =>
    exact sound_of_frame db history _ h (getTicket_frame queryErr db idParam).1
      (getTicket_frame queryErr db idParam).2
  | purchaseTicket env req => exact sound_purchaseTicket env db req history h

theorem sound_serve (rs : List Request) (db : Store) (history : List Outcome)
    (h : Sound db history) : Sound (finalStore db rs) (history ++ serve db rs) := by
  induction rs generalizing db history with
  | nil => simpa [finalStore, serve] using h
  | cons r rs ih =>
    have := ih (handle db r).db (history ++ [handle db r]) (sound_handle db r history h)
    simpa [finalStore, serve] using this

theorem sound_emptyStore : Sound emptyStore [] := by
  refine ⟨?_, ?_, ?_, ?_, ?_, ?_⟩ <;> simp [emptyStore, TicketKeysUnique, PurchasesReferenceTickets]

theorem sound_reachable (rs : List Request) :
    Sound (finalStore emptyStore rs) (serve emptyStore rs) := by
  simpa using sound_serve rs emptyStore [] sound_emptyStore

/-! ## Store invariants over request sequences -/

/-- Claim C1 (accounting invariant). After any finite sequence of requests served
from the empty store, with arbitrary bodies, keys and store errors, every
ticket row `t` was announced by a `201` response, and the allocation in that
response minus the sum of the quantities of the purchase rows with
`ticket_id = t.id` is the allocation of `t`. -/
theorem accounting_invariant (rs : List Request) (t : TicketRow)
    (ht : t ∈ (finalStore emptyStore rs).tickets) :
    ∃ a0, allocationAtCreation (serve emptyStore rs) t.id = some a0
      ∧ a0 - soldQuantity (finalStore emptyStore rs) t.id = t.allocation := by
  refine ⟨_, (sound_reachable rs).account t ht, ?_⟩
  ring

/-- Witness of C1: after the walkthrough, ticket 1 holds allocation 1. -/
theorem accounting_invariant_witness :
    (⟨1, "Concert", "...", 1⟩ : TicketRow) ∈ (finalStore emptyStore walkthrough).tickets
      ∧ ∃ a0, allocationAtCreation (serve emptyStore walkthrough)
            (⟨1, "Concert", "...", 1⟩ : TicketRow).id = some a0
          ∧ a0 - soldQuantity (finalStore emptyStore walkthrough)
              (⟨1, "Concert", "...", 1⟩ : TicketRow).id
            = (⟨1, "Concert", "...", 1⟩ : TicketRow).allocation :=
  ⟨by decide, accounting_invariant walkthrough ⟨1, "Concert", "...", 1⟩ (by decide)⟩

/-- Claim C2 (allocation is never negative). After any finite sequence of
requests served from the empty store, every ticket row has allocation `≥ 0`;
and a further request that is not a purchase answered with `200` keeps every
ticket row as it is: the row is still in the table, and it is the only row
with its id. -/
theorem allocation_nonneg_and_framed (rs : List Request) (r : Request) :
    (∀ t ∈ (finalStore emptyStore rs).tickets, 0 ≤ t.allocation)
      ∧ ((∀ env req, r = Request.purchaseTicket env req →
            (purchaseTicket env (finalStore emptyStore rs) req).response.status ≠ 200) →
          ∀ t ∈ (finalStore emptyStore rs).tickets,
            t ∈ (handle (finalStore emptyStore rs) r).db.tickets
              ∧ ∀ t' ∈ (handle (finalStore emptyStore rs) r).db.tickets,
                  t'.id = t.id → t' = t) := by
  refine ⟨(sound_reachable rs).nonneg, fun hr t ht => ?_⟩
  have hkeep := handle_keeps_tickets (finalStore emptyStore rs) r hr t ht
  have hs := sound_handle (finalStore emptyStore rs) r _ (sound_reachable rs)
  exact ⟨hkeep, fun t' ht' he => eq_of_same_key _ t' t hs.keys ht' hkeep he⟩

/-- Witness of C2: after the walkthrough, a refused purchase of 2 leaves ticket 1
with allocation 1. -/
theorem allocation_nonneg_and_framed_witness :
    (∀ t ∈ (finalStore emptyStore walkthrough).tickets, 0 ≤ t.allocation)
      ∧ ((⟨1, "Concert", "...", 1⟩ : TicketRow)
            ∈ (handle (finalStore emptyStore walkthrough)
                (Request.purchaseTicket (calm 3) (purchaseOf 1 2 "u2"))).db.tickets
          ∧ ∀ t' ∈ (handle (finalStore emptyStore walkthrough)
                (Request.purchaseTicket (calm 3) (purchaseOf 1 2 "u2"))).db.tickets,
              t'.id = (⟨1, "Concert", "...", 1⟩ : TicketRow).id
                → t' = ⟨1, "Concert", "...", 1⟩) :=
  ⟨(allocation_nonneg_and_framed walkthrough
      (Request.purchaseTicket (calm 3) (purchaseOf 1 2 "u2"))).1,
   (allocation_nonneg_and_framed walkthrough
      (Request.purchaseTicket (calm 3) (purchaseOf 1 2 "u2"))).2
     (fun env req h => by cases h; decide) ⟨1, "Concert", "...", 1⟩ (by decide)⟩

/-- Claim C9 (purchase rows are well-formed). After any finite sequence of
requests served from the empty store, every purchase row has a positive
quantity, a non-empty user id, and a `ticket_id` that is the id of a ticket row
of the same store. -/
theorem purchase_rows_wellformed (rs : List Request) (p : PurchaseRow)
    (hp : p ∈ (finalStore emptyStore rs).purchases) :
    0 < p.quantity ∧ p.user_id ≠ ""
      ∧ ∃ t ∈ (finalStore emptyStore rs).tickets, t.id = p.ticket_id := by
  have hs := sound_reachable rs
  refine ⟨(hs.rows p hp).1, (hs.rows p hp).2, ?_⟩
  obtain ⟨t, ht, hid⟩ := List.mem_map.mp (hs.refs p hp)
  exact ⟨t, ht, hid⟩

/-- Witness of C9: the one purchase row the walkthrough leaves. -/
theorem purchase_rows_wellformed_witness :
    (⟨1, 1, "u1", 1⟩ : PurchaseRow) ∈ (finalStore emptyStore walkthrough).purchases
      ∧ (0 < (⟨1, 1, "u1", 1⟩ : PurchaseRow).quantity
          ∧ (⟨1, 1, "u1", 1⟩ : PurchaseRow).user_id ≠ ""
          ∧ ∃ t ∈ (finalStore emptyStore walkthrough).tickets,
              t.id = (⟨1, 1, "u1", 1⟩ : PurchaseRow).ticket_id) :=
  ⟨by decide, purchase_rows_wellformed walkthrough ⟨1, 1, "u1", 1⟩ (by decide)⟩


/-! ## Single purchase requests -/

/-- Claim C3 (successful purchase postcondition). In a store whose ticket ids are
unique (the primary key of `tickets`) and that holds a ticket with id `i` and
allocation `a`, a purchase of `q` with `1 ≤ q ≤ a` by a non-empty user `u`, in a
run where no store call returns an error, gets `200`; the tickets table
afterwards is the one before with the allocation of ticket `i` set to `a - q`
and every other row as it was; the purchases table is the one before followed
by the single row `(ticket_id = i, user_id = u, quantity = q)`. -/
theorem purchaseTicket_success (env : PurchaseEnv) (db : Store) (i a q : Int)
    (u name desc : String) (hkey : TicketKeysUnique db)
    (hmem : (⟨i, name, desc, a⟩ : TicketRow) ∈ db.tickets)
    (hq1 : 1 ≤ q) (hqa : q ≤ a) (hu : u ≠ "")
    (hok : ∀ c ∈ (purchaseTicket env db (purchaseOf i q u)).calls, ¬ c.failed) :
    (purchaseTicket env db (purchaseOf i q u)).response = ⟨200, Body.empty⟩
      ∧ (purchaseTicket env db (purchaseOf i q u)).db.tickets
          = db.tickets.map (setAllocation (a - q) i)
      ∧ (⟨i, name, desc, a - q⟩ : TicketRow) ∈ (purchaseTicket env db (purchaseOf i q u)).db.tickets
      ∧ (∀ r ∈ db.tickets, r.id ≠ i → r ∈ (purchaseTicket env db (purchaseOf i q u)).db.tickets)
      ∧ (purchaseTicket env db (purchaseOf i q u)).db.purchases
          = db.purchases ++ [⟨env.purchaseId, i, u, q⟩] :=
  purchaseTicket_commits env db i a q u name desc hkey hmem hq1 hqa hu hok

/-- Witness of C3, the spec walkthrough: allocation 2, purchase of 1 by "u1". -/
theorem purchaseTicket_success_witness :
    (TicketKeysUnique (concert 2) ∧ (⟨1, "Concert", "...", 2⟩ : TicketRow) ∈ (concert 2).tickets
      ∧ (∀ c ∈ (purchaseTicket (calm 1) (concert 2) (purchaseOf 1 1 "u1")).calls, ¬ c.failed))
    ∧ ((purchaseTicket (calm 1) (concert 2) (purchaseOf 1 1 "u1")).response = ⟨200, Body.empty⟩
      ∧ (purchaseTicket (calm 1) (concert 2) (purchaseOf 1 1 "u1")).db.tickets
          = (concert 2).tickets.map (setAllocation (2 - 1) 1)
      ∧ (⟨1, "Concert", "...", 2 - 1⟩ : TicketRow)
          ∈ (purchaseTicket (calm 1) (concert 2) (purchaseOf 1 1 "u1")).db.tickets
      ∧ (∀ r ∈ (concert 2).tickets, r.id ≠ 1 →
          r ∈ (purchaseTicket (calm 1) (concert 2) (purchaseOf 1 1 "u1")).db.tickets)
      ∧ (purchaseTicket (calm 1) (concert 2) (purchaseOf 1 1 "u1")).db.purchases
          = (concert 2).purchases ++ [⟨1, 1, "u1", 1⟩]) :=
  ⟨⟨by decide, by decide, by decide⟩,
   purchaseTicket_success (calm 1) (concert 2) 1 2 1 "u1" "Concert" "..."
     (by decide) (by decide) (by decide) (by decide) (by decide) (by decide)⟩

/-- Counterexample to C4 as stated: the store holds ticket 1 with allocation 1,
the request asks for 2 by "u2" and is valid, but the locked `SELECT` returns
an error that is not `sql.ErrNoRows` (main.go, lines 192-198): the response is
500 "Failed to retrieve ticket", not the 400 of insufficient inventory. -/
theorem insufficient_request_gets_500_on_read_error :
    TicketKeysUnique (concert 1)
      ∧ (⟨1, "Concert", "...", 1⟩ : TicketRow) ∈ (concert 1).tickets
      ∧ (1 : Int) < 2
      ∧ shouldBindPurchase (purchaseOf 1 2 "u2").body = some ⟨2, "u2"⟩
      ∧ (purchaseTicket selectDown (concert 1) (purchaseOf 1 2 "u2")).response
          = ⟨500, Body.error "Failed to retrieve ticket"⟩
      ∧ (purchaseTicket selectDown (concert 1) (purchaseOf 1 2 "u2")).response.status ≠ 400 := by
  decide

/-- Claim C4, amended (insufficient inventory is rejected without effect). In a
store whose ticket ids are unique and that holds a ticket with id `i` and
allocation `a`, a valid request for `q > a` leaves the store as it was, whatever
the environment; and when neither `db.Begin()` nor the locked `SELECT` returns
an error, the response is 400 "Not enough tickets available" and the only
store calls are the begin, the locked read and the rollback. -/
theorem purchaseTicket_insufficient (env : PurchaseEnv) (db : Store) (i a q : Int)
    (u name desc : String) (hkey : TicketKeysUnique db)
    (hmem : (⟨i, name, desc, a⟩ : TicketRow) ∈ db.tickets)
    (hq1 : 1 ≤ q) (hqa : a < q) (hu : u ≠ "") :
    (purchaseTicket env db (purchaseOf i q u)).db = db
      ∧ (env.beginErr = false → env.selectErr = false →
          (purchaseTicket env db (purchaseOf i q u)).response
              = ⟨400, Body.error "Not enough tickets available"⟩
            ∧ (purchaseTicket env db (purchaseOf i q u)).calls
              = [⟨Stmt.begin, CallResult.ok⟩,
                 ⟨Stmt.selectAllocationForUpdate i, CallResult.ok⟩,
                 ⟨Stmt.rollback, CallResult.ok⟩]) :=
  purchaseTicket_refuses env db i a q u name desc hkey hmem hq1 hqa hu

/-- Witness of amended C4, the spec walkthrough: allocation 1, purchase of 2 by
"u2" is refused with 400 and the allocation stays 1. -/
theorem purchaseTicket_insufficient_witness :
    (purchaseTicket (calm 2) (concert 1) (purchaseOf 1 2 "u2")).db = concert 1
      ∧ (purchaseTicket (calm 2) (concert 1) (purchaseOf 1 2 "u2")).response
          = ⟨400, Body.error "Not enough tickets available"⟩
      ∧ (purchaseTicket (calm 2) (concert 1) (purchaseOf 1 2 "u2")).calls
          = [⟨Stmt.begin, CallResult.ok⟩,
             ⟨Stmt.selectAllocationForUpdate 1, CallResult.ok⟩,
             ⟨Stmt.rollback, CallResult.ok⟩] :=
  ⟨(purchaseTicket_insufficient (calm 2) (concert 1) 1 1 2 "u2" "Concert" "..."
      (by decide) (by decide) (by decide) (by decide) (by decide)).1,
   (purchaseTicket_insufficient (calm 2) (concert 1) 1 1 2 "u2" "Concert" "..."
      (by decide) (by decide) (by decide) (by decide) (by decide)).2 rfl rfl⟩

/-- Claim C5 (atomicity on failure). For every store, request and environment:
if the purchase insert or the commit returned an error, the response is 500
and the store is the one before the request; and whenever the response is not
200 the store is the one before the request. -/
theorem purchaseTicket_atomic (env : PurchaseEnv) (db : Store) (req : PurchaseRequest) :
    ((∃ c ∈ (purchaseTicket env db req).calls, c.failed ∧
        ((∃ t u q, c.stmt = Stmt.insertPurchase t u q) ∨ c.stmt = Stmt.commit)) →
      (purchaseTicket env db req).response.status = 500 ∧
      (purchaseTicket env db req).db = db) ∧
    ((purchaseTicket env db req).response.status ≠ 200 →
      (purchaseTicket env db req).db = db) := by
  refine ⟨?_, purchaseTicket_db_of_ne_ok env db req⟩
  intro hfail
  have hst : (purchaseTicket env db req).response.status = 500 := by
    obtain ⟨b, s, u, i, c, pid⟩ := env
    obtain ⟨idParam, body⟩ := req
    cases idParam with
    | none => simp [purchaseTicket] at hfail
    | some id =>
      cases hb : shouldBindPurchase body with
      | none => simp [purchaseTicket, hb] at hfail
      | some p =>
        cases hsel : selectAllocationForUpdate db id with
        | none =>
          cases b <;> cases s <;>
            simp [purchaseTicket, hb, hsel, StoreCall.failed] at hfail ⊢
        | some cur =>
          by_cases hlt : cur < p.Quantity
          · cases b <;> cases s <;>
              simp [purchaseTicket, hb, hsel, hlt, StoreCall.failed] at hfail ⊢
          · cases hupd : updateAllocation db (cur - p.Quantity) id with
            | none =>
              cases b <;> cases s <;> cases u <;>
                simp [purchaseTicket, hb, hsel, hlt, hupd, StoreCall.failed] at hfail ⊢
            | some tx1 =>
              cases hins : insertPurchase tx1 pid id p.UserID p.Quantity with
              | none =>
                cases b <;> cases s <;> cases u <;> cases i <;>
                  simp [purchaseTicket, hb, hsel, hlt, hupd, hins, StoreCall.failed] at hfail ⊢
              | some tx2 =>
                cases b <;> cases s <;> cases u <;> cases i <;> cases c <;>
                  simp [purchaseTicket, hb, hsel, hlt, hupd, hins, StoreCall.failed] at hfail ⊢
  exact ⟨hst, purchaseTicket_db_of_ne_ok env db req (by rw [hst]; decide)⟩

/-- Witness of C5: the insert fails after the update, and the commit fails; both
times the response is 500 and the store is untouched. -/
theorem purchaseTicket_atomic_witness :
    ((purchaseTicket insertDown (concert 2) (purchaseOf 1 1 "u1")).response.status = 500
      ∧ (purchaseTicket insertDown (concert 2) (purchaseOf 1 1 "u1")).db = concert 2)
    ∧ ((purchaseTicket commitDown (concert 2) (purchaseOf 1 1 "u1")).response.status = 500
      ∧ (purchaseTicket commitDown (concert 2) (purchaseOf 1 1 "u1")).db = concert 2) :=
  ⟨(purchaseTicket_atomic insertDown (concert 2) (purchaseOf 1 1 "u1")).1
     ⟨⟨Stmt.insertPurchase 1 "u1" 1, CallResult.error⟩, by decide, rfl,
       Or.inl ⟨1, "u1", 1, rfl⟩⟩,
   (purchaseTicket_atomic commitDown (concert 2) (purchaseOf 1 1 "u1")).1
     ⟨⟨Stmt.commit, CallResult.error⟩, by decide, rfl, Or.inr rfl⟩⟩

/-- Counterexample to C6 as stated: the store is empty, the request for ticket 7
is valid, but the locked `SELECT` returns an error that is not
`sql.ErrNoRows` (main.go, lines 195-196): the response is 500 "Failed to
retrieve ticket", not 404. -/
theorem missing_ticket_gets_500_on_read_error :
    (7 : Int) ∉ emptyStore.tickets.map TicketRow.id
      ∧ shouldBindPurchase (purchaseOf 7 1 "u1").body = some ⟨1, "u1"⟩
      ∧ (purchaseTicket selectDown emptyStore (purchaseOf 7 1 "u1")).response
          = ⟨500, Body.error "Failed to retrieve ticket"⟩
      ∧ (purchaseTicket selectDown emptyStore (purchaseOf 7 1 "u1")).response.status ≠ 404 := by
  decide

/-- Claim C6, amended (purchase against a missing ticket). For every store and
every valid purchase request whose ticket id is the id of no ticket row, the
store afterwards is the one before and no purchase insert is attempted,
whatever the environment; and when neither `db.Begin()` nor the locked
`SELECT` returns an error of its own, the response is 404 "Ticket not found". -/
theorem purchaseTicket_missing (env : PurchaseEnv) (db : Store) (i q : Int) (u : String)
    (hmiss : i ∉ db.tickets.map TicketRow.id) (hq1 : 1 ≤ q) (hu : u ≠ "") :
    (purchaseTicket env db (purchaseOf i q u)).db = db
      ∧ (∀ c ∈ (purchaseTicket env db (purchaseOf i q u)).calls,
          ∀ t w n, c.stmt ≠ Stmt.insertPurchase t w n)
      ∧ (env.beginErr = false → env.selectErr = false →
          (purchaseTicket env db (purchaseOf i q u)).response
            = ⟨404, Body.error "Ticket not found"⟩) := by
  have hsel : selectAllocationForUpdate db i = none := by
    unfold selectAllocationForUpdate
    rw [find_none_of_not_mem db.tickets i hmiss]
    rfl
  have hbind := shouldBindPurchase_valid q u hq1 hu
  obtain ⟨b, s, ue, ie, c, pid⟩ := env
  cases b <;> cases s <;> simp [purchaseTicket, purchaseOf, hbind, hsel]

/-- Witness of amended C6: ticket 7 is missing from the store of the
walkthrough; the response is 404 and the store is untouched. -/
theorem purchaseTicket_missing_witness :
    (purchaseTicket (calm 1) (concert 2) (purchaseOf 7 1 "u1")).db = concert 2
      ∧ (∀ c ∈ (purchaseTicket (calm 1) (concert 2) (purchaseOf 7 1 "u1")).calls,
          ∀ t w n, c.stmt ≠ Stmt.insertPurchase t w n)
      ∧ (purchaseTicket (calm 1) (concert 2) (purchaseOf 7 1 "u1")).response
          = ⟨404, Body.error "Ticket not found"⟩ :=
  ⟨(purchaseTicket_missing (calm 1) (concert 2) 7 1 "u1"
      (by decide) (by decide) (by decide)).1,
   (purchaseTicket_missing (calm 1) (concert 2) 7 1 "u1"
      (by decide) (by decide) (by decide)).2.1,
   (purchaseTicket_missing (calm 1) (concert 2) 7 1 "u1"
      (by decide) (by decide) (by decide)).2.2 rfl rfl⟩

/-- Claim C7 (validation precedes storage). A purchase request whose quantity is
zero or negative, or whose user id is empty, gets status 400 (the binding
error, or the id error when the path parameter is no integer), the handler
makes no store call at all, and the store is the one before; this holds for
every store, every environment and every path parameter. -/
theorem purchaseTicket_invalid_body_no_store_call (env : PurchaseEnv) (db : Store)
    (idParam : Option Int) (p : Purchase) (h : p.Quantity ≤ 0 ∨ p.UserID = "") :
    (purchaseTicket env db ⟨idParam, some p⟩).response
        = ⟨400, if idParam.isSome then Body.bindError else Body.error "Invalid ticket ID"⟩
      ∧ (purchaseTicket env db ⟨idParam, some p⟩).calls = []
      ∧ (purchaseTicket env db ⟨idParam, some p⟩).db = db := by
  have hb : shouldBindPurchase (some p) = none := by
    unfold shouldBindPurchase
    simp only [ite_eq_left_iff, reduceCtorEq, imp_false, not_not]
    rcases h with h | h
    · by_cases h0 : p.Quantity = 0
      · exact Or.inl h0
      · exact Or.inr (Or.inl (by omega))
    · exact Or.inr (Or.inr h)
  cases idParam with
  | none => simp [purchaseTicket]
  | some id => simp [purchaseTicket, hb]

/-- Witness of C7: a purchase of quantity 0 against the existing ticket 1. -/
theorem purchaseTicket_invalid_body_no_store_call_witness :
    ((0 : Int) ≤ 0 ∨ "u1" = "") ∧
    (purchaseTicket (calm 1) (concert 2) ⟨some 1, some ⟨0, "u1"⟩⟩).response
        = ⟨400, if (some (1 : Int)).isSome then Body.bindError
                else Body.error "Invalid ticket ID"⟩
      ∧ (purchaseTicket (calm 1) (concert 2) ⟨some 1, some ⟨0, "u1"⟩⟩).calls = []
      ∧ (purchaseTicket (calm 1) (concert 2) ⟨some 1, some ⟨0, "u1"⟩⟩).db = concert 2 :=
  ⟨Or.inl (le_refl 0),
   purchaseTicket_invalid_body_no_store_call (calm 1) (concert 2) (some 1) ⟨0, "u1"⟩
     (Or.inl (le_refl 0))⟩


/-! ## Sequences of purchases -/

/-- Claim C10 (sequential sell-out count). In a store with unique ticket ids that
holds ticket `i` with allocation `n ≥ 0`, `k` quantity-1 purchases by non-empty
users handled one after another, none of whose store calls returns an error,
get `min n k` responses `200` followed by `k - min n k` responses
400 "Not enough tickets available"; afterwards ticket `i` has allocation
`n - min n k` and ticket ids are still unique. -/
theorem sequential_sellout (buyers : List (PurchaseEnv × String)) (db : Store) (i n : Int)
    (name desc : String) (hkey : TicketKeysUnique db)
    (hmem : (⟨i, name, desc, n⟩ : TicketRow) ∈ db.tickets) (hn : 0 ≤ n)
    (hu : ∀ b ∈ buyers, b.2 ≠ "")
    (hok : ∀ o ∈ serve db (singlePurchases i buyers), ∀ c ∈ o.calls, ¬ c.failed) :
    (serve db (singlePurchases i buyers)).map Outcome.response
        = List.replicate (min n.toNat buyers.length) ⟨200, Body.empty⟩
          ++ List.replicate (buyers.length - min n.toNat buyers.length)
              ⟨400, Body.error "Not enough tickets available"⟩
      ∧ (⟨i, name, desc, n - (min n.toNat buyers.length : Nat)⟩ : TicketRow)
          ∈ (finalStore db (singlePurchases i buyers)).tickets
      ∧ TicketKeysUnique (finalStore db (singlePurchases i buyers)) := by
  induction buyers generalizing db n with
  | nil =>
    refine ⟨by simp [singlePurchases, serve], ?_, ?_⟩
    · simpa [singlePurchases, finalStore] using hmem
    · simpa [singlePurchases, finalStore] using hkey
  | cons b bs ih =>
    obtain ⟨e, u⟩ := b
    have hcons : singlePurchases i ((e, u) :: bs)
        = Request.purchaseTicket e (purchaseOf i 1 u) :: singlePurchases i bs := rfl
    have hue : u ≠ "" := hu (e, u) (List.mem_cons_self _ _)
    have hus : ∀ b ∈ bs, b.2 ≠ "" := fun b hb => hu b (List.mem_cons_of_mem _ hb)
    rw [hcons] at hok ⊢
    simp only [serve, finalStore, handle, List.mem_cons, forall_eq_or_imp] at hok ⊢
    obtain ⟨hok1, hok2⟩ := hok
    by_cases hn0 : n = 0
    · subst hn0
      obtain ⟨hb, hs⟩ := purchaseTicket_begin_select_ok e db i 1 u (le_refl 1) hue hok1
      obtain ⟨hdb, hresp⟩ :=
        purchaseTicket_refuses e db i 0 1 u name desc hkey hmem (le_refl 1) (by decide) hue
      rw [hdb] at hok2 ⊢
      obtain ⟨ih1, ih2, ih3⟩ := ih db 0 hkey hmem (le_refl 0) hus hok2
      refine ⟨?_, ?_, ih3⟩
      · rw [List.map_cons, ih1, (hresp hb hs).1]
        simp [List.replicate_succ]
      · simpa using ih2
    · have hn1 : 1 ≤ n := by omega
      obtain ⟨hresp, htk, hmem1, _, _⟩ :=
        purchaseTicket_commits e db i n 1 u name desc hkey hmem (le_refl 1) hn1 hue hok1
      have hkey1 : TicketKeysUnique (purchaseTicket e db (purchaseOf i 1 u)).db := by
        unfold TicketKeysUnique
        rw [htk, map_setAllocation_keys]
        exact hkey
      obtain ⟨ih1, ih2, ih3⟩ :=
        ih (purchaseTicket e db (purchaseOf i 1 u)).db (n - 1) hkey1 hmem1 (by omega) hus hok2
      have hto : n.toNat = (n - 1).toNat + 1 := by omega
      refine ⟨?_, ?_, ih3⟩
      · rw [List.map_cons, ih1, hresp, hto]
        simp [List.replicate_succ, Nat.succ_min_succ]
      · have hcast : n - 1 - ((min (n - 1).toNat bs.length : Nat) : Int)
            = n - ((min n.toNat ((e, u) :: bs).length : Nat) : Int) := by
          rw [hto, List.length_cons, Nat.succ_min_succ]
          push_cast
          ring
        rw [← hcast]
        exact ih2

/-- Witness of C10: allocation 5 and ten purchases give five `200`, then five
`400`, and allocation 0. -/
theorem sequential_sellout_witness :
    (TicketKeysUnique (concert 5) ∧ (⟨1, "Concert", "...", 5⟩ : TicketRow) ∈ (concert 5).tickets
      ∧ (∀ b ∈ tenBuyers, b.2 ≠ "")
      ∧ (∀ o ∈ serve (concert 5) (singlePurchases 1 tenBuyers), ∀ c ∈ o.calls, ¬ c.failed))
    ∧ ((serve (concert 5) (singlePurchases 1 tenBuyers)).map Outcome.response
        = [⟨200, Body.empty⟩, ⟨200, Body.empty⟩, ⟨200, Body.empty⟩, ⟨200, Body.empty⟩,
           ⟨200, Body.empty⟩,
           ⟨400, Body.error "Not enough tickets available"⟩,
           ⟨400, Body.error "Not enough tickets available"⟩,
           ⟨400, Body.error "Not enough tickets available"⟩,
           ⟨400, Body.error "Not enough tickets available"⟩,
           ⟨400, Body.error "Not enough tickets available"⟩]
      ∧ (⟨1, "Concert", "...", 0⟩ : TicketRow)
          ∈ (finalStore (concert 5) (singlePurchases 1 tenBuyers)).tickets
      ∧ TicketKeysUnique (finalStore (concert 5) (singlePurchases 1 tenBuyers))) :=
  ⟨⟨by decide, by decide, by decide, by decide⟩,
   sequential_sellout tenBuyers (concert 5) 1 5 "Concert" "..."
     (by decide) (by decide) (by decide) (by decide) (by decide)⟩

end GoTickets
